import Mathlib

/-!
Shallow embedding of the monaco-tailwind build-and-cache bridge.

Embedded components:
* the caller-side build cache of `TailwindHandler.buildCss`
  (src/TailwindHandler.ts, lines 85-195);
* the worker-side `TailwindcssWorkerImpl.buildCss` rebuild algorithm and
  class partition, `TailwindcssWorkerImpl.getState` analysis-state cache,
  and `createLoadStylesheet` import resolution (tailwind.worker source).

The tailwindcss compiler, the design-system loader and the language
service are opaque external dependencies; they appear as function
parameters (`buildFn`, `candFn`, `getClassList`, `getColor`,
`getVariantsFn`, `worker`).  A compiled-stylesheet handle and a
design-system handle are modelled as the `(css, files)` snapshot they
were created from.  A JavaScript promise rejection is modelled with
`Except`; a `console.warn` / fire-and-forget side effect is modelled as
an explicit flag or state field.
-/

/-- A `Record<string, string>` mapping file paths to contents. -/
abbrev FilesMap := List (String × String)

/-- Property lookup `files[path]` on the file record. -/
def lookupFile (files : FilesMap) (path : String) : Option String :=
  (files.find? (fun kv => kv.1 == path)).map (fun kv => kv.2)

/-- One entry of `CssCompilerResult.tailwindClasses`
    (src/TailwindHandler.ts lines 31-34). -/
structure TailwindClass where
  className : String
  css : String
deriving DecidableEq

/-- The `CssCompilerResult` / worker `BuildResult` shape
    (src/TailwindHandler.ts lines 29-38).  The optional `errors` and
    `warnings` fields are never produced by the embedded code paths and
    default to `none`. -/
structure BuildResult where
  css : String
  tailwindClasses : List TailwindClass
  notTailwindClasses : List String
  errors : Option (List String) := none
  warnings : Option (List String) := none
deriving DecidableEq

/-- The private cache fields of `TailwindHandler`
    (src/TailwindHandler.ts lines 86-93). -/
structure HandlerState where
  previousCss : String
  previousClasses : List String
  previousBuildCss : BuildResult
deriving DecidableEq

/-- Field initializers of a freshly constructed `TailwindHandler`
    (src/TailwindHandler.ts lines 86-93). -/
def initialHandlerState : HandlerState :=
  { previousCss := ""
    previousClasses := []
    previousBuildCss := { css := "", tailwindClasses := [], notTailwindClasses := [] } }

/-- The cache-hit condition of `TailwindHandler.buildCss`
    (src/TailwindHandler.ts lines 183-186):
    `previousCss === css && classes.every(c => previousClasses.includes(c))`. -/
def cacheHit (st : HandlerState) (css : String) (classes : List String) : Bool :=
  st.previousCss == css && classes.all (fun c => st.previousClasses.contains c)

/-- `TailwindHandler.buildCss` (src/TailwindHandler.ts lines 178-195).
    `worker` is the delegated worker `buildCss(css, files, classes)`; its
    rejection is an `Except.error`.  Returns the produced result, the
    handler state after the call, and whether the worker was invoked.
    The assignments to `previousCss` and `previousClasses` happen before
    the `await` of the worker call, so on a worker error they are already
    overwritten while `previousBuildCss` keeps its old value. -/
def TailwindHandler.buildCss
    (worker : String → FilesMap → List String → Except String BuildResult)
    (st : HandlerState) (css : String) (classes : List String) (files : FilesMap) :
    Except String BuildResult × HandlerState × Bool :=
  if cacheHit st css classes then
    (.ok st.previousBuildCss, st, false)
  else
    match worker css files classes with
    | .ok r =>
        (.ok r, { previousCss := css, previousClasses := classes, previousBuildCss := r }, true)
    | .error e =>
        (.error e, { st with previousCss := css, previousClasses := classes }, true)

/-- The module-level mutable state of the worker
    (tailwind.worker source, lines 305-307): `previousCss`, `compiler`,
    `designSystem`.  Handles are modelled as the `(css, files)` snapshot
    they were created from.  `pendingDesignSystem` records a
    fire-and-forget `loadDesignSystem(css, opts).then(...)` whose
    assignment to `designSystem` has not resolved yet. -/
structure WorkerState where
  previousCss : String
  compiler : Option (String × FilesMap)
  designSystem : Option (String × FilesMap)
  pendingDesignSystem : Option (String × FilesMap)
deriving DecidableEq

/-- The partition loop of the worker `buildCss`
    (tailwind.worker source, lines 286-298): for each index, a `null`
    entry of `candidatesToCss(classes)` sends `classes[i]` to
    `notTailwindClasses`, otherwise `{className, css}` is pushed to
    `tailwindClasses`, both in index order.  `cand` is the per-candidate
    view of `designSystem.candidatesToCss`. -/
def partitionClasses (cand : String → Option String) :
    List String → List TailwindClass × List String
  | [] => ([], [])
  | c :: rest =>
    let p := partitionClasses cand rest
    match cand c with
    | some s => ({ className := c, css := s } :: p.1, p.2)
    | none => (p.1, c :: p.2)

/-- `TailwindcssWorkerImpl.buildCss` (tailwind.worker source, lines
    267-302).  Throws if no compiler instance exists; recompiles the
    compiler handle and kicks off design-system derivation when `css`
    differs from the last-seen text (the derivation is fire-and-forget,
    so `designSystem` is unchanged within this call and the pending
    snapshot is recorded); always runs `compiler.build(classes)`; then
    partitions the classes through the current design system, or marks
    every class as not-Tailwind when no design system is available yet.
    `buildFn` is the opaque `compiler.build` semantics of a compiler
    handle, `candFn` the per-class `designSystem.candidatesToCss`
    semantics of a design-system handle. -/
def TailwindcssWorkerImpl.buildCss
    (buildFn : String → FilesMap → List String → String)
    (candFn : String → FilesMap → String → Option String)
    (st : WorkerState) (css : String) (files : FilesMap) (classes : List String) :
    Except String (BuildResult × WorkerState) :=
  match st.compiler with
  | none => .error "Tailwind CSS compiler is not initialized"
  | some comp0 =>
    let comp := if css == st.previousCss then comp0 else (css, files)
    let st1 : WorkerState :=
      if css == st.previousCss then st
      else { st with
              compiler := some (css, files)
              pendingDesignSystem := some (css, files)
              previousCss := css }
    let builtCss := buildFn comp.1 comp.2 classes
    match st.designSystem with
    | some ds =>
      let p := partitionClasses (candFn ds.1 ds.2) classes
      .ok ({ css := builtCss, tailwindClasses := p.1, notTailwindClasses := p.2 }, st1)
    | none =>
      .ok ({ css := builtCss, tailwindClasses := [], notTailwindClasses := classes }, st1)

/-- One entry of the analysis-state class list (tailwind.worker source,
    lines 161-167): a class name from `designSystem.getClassList()`
    paired with the color computed by `getColor`. -/
structure AnalysisClassEntry where
  className : String
  color : Option String
deriving DecidableEq

/-- The derived fields of the per-request analysis `State`
    (tailwind.worker source, lines 98-169): the design-system handle it
    was built from, the class list with color annotations, and the
    variants.  The static configuration fields (capability flags, lint
    severities, separator, and so on) are compile-time constants in the
    source and are omitted. -/
structure AnalysisState (DS : Type) where
  designSystem : DS
  classList : List AnalysisClassEntry
  variants : List String
deriving DecidableEq

/-- Construction of a fresh analysis state from a design-system handle
    (tailwind.worker source, lines 98-169): `classList` maps
    `getClassList` through `getColor`, `variants` comes from
    `getVariants`; all derived fields are built together from the same
    handle. -/
def buildAnalysisState {DS : Type} (getClassList : DS → List String)
    (getColor : DS → String → Option String) (getVariantsFn : DS → List String)
    (ds : DS) : AnalysisState DS :=
  { designSystem := ds
    classList := (getClassList ds).map (fun c => { className := c, color := getColor ds c })
    variants := getVariantsFn ds }

/-- The analysis-state cache fields of `TailwindcssWorkerImpl`
    (tailwind.worker source, lines 83-84): `cachedState` and
    `cachedStateDS`. -/
structure StateCache (DS : Type) where
  cachedState : Option (AnalysisState DS)
  cachedStateDS : Option DS
deriving DecidableEq

/-- `TailwindcssWorkerImpl.getState` (tailwind.worker source, lines
    90-175).  Throws when no design system exists; returns the cached
    state when one is cached and its recorded design-system handle is
    reference-identical to the current one; otherwise rebuilds the whole
    state from the current handle and stores it together with that
    handle.  `DS` is the type of design-system handles, compared by
    identity. -/
def TailwindcssWorkerImpl.getState {DS : Type} [DecidableEq DS]
    (getClassList : DS → List String) (getColor : DS → String → Option String)
    (getVariantsFn : DS → List String)
    (cache : StateCache DS) (designSystem : Option DS) :
    Except String (AnalysisState DS × StateCache DS) :=
  match designSystem with
  | none => .error "Design system is not initialized"
  | some ds =>
    match cache.cachedState with
    | some st =>
      if cache.cachedStateDS = some ds then
        .ok (st, cache)
      else
        let st := buildAnalysisState getClassList getColor getVariantsFn ds
        .ok (st, { cachedState := some st, cachedStateDS := some ds })
    | none =>
      let st := buildAnalysisState getClassList getColor getVariantsFn ds
      .ok (st, { cachedState := some st, cachedStateDS := some ds })

/-- Structural test that the second character list is an initial run of
    the first arguments mirror: helper for `strStarts`. -/
def charsStart : List Char → List Char → Bool
  | [], _ => true
  | _ :: _, [] => false
  | p :: ps, c :: cs => p == c && charsStart ps cs

/-- The JavaScript `s.startsWith(p)` test (structural, so that concrete
    instances evaluate). -/
def strStarts (s p : String) : Bool := charsStart p.data s.data

/-- Helper of `splitSlash`: accumulates the current segment in reverse
    while scanning the character list. -/
def splitSlashAux (cur : List Char) : List Char → List String
  | [] => [String.mk cur.reverse]
  | ch :: rest =>
    if ch == '/' then String.mk cur.reverse :: splitSlashAux [] rest
    else splitSlashAux (ch :: cur) rest

/-- Splitting a string on `/`, the segment view of a URL path (the
    JavaScript `s.split("/")`, including its empty segments). -/
def splitSlash (s : String) : List String := splitSlashAux [] s.data

/-- Dot-segment resolution of a URL path: `.` segments are dropped and
    `..` segments remove the previously accepted segment, as in
    `new URL` resolution.  `acc` holds accepted segments in reverse. -/
def resolveDots (acc : List String) : List String → List String
  | [] => acc.reverse
  | s :: rest =>
    if s == "." then resolveDots acc rest
    else if s == ".." then resolveDots (acc.drop 1) rest
    else resolveDots (s :: acc) rest

/-- The pathname of `new URL(path, "file://" ++ base ++ "/")` for a
    relative `path` (tailwind.worker source, line 380).  When `base`
    starts with `/` the URL authority is empty and the URL path is
    `base ++ "/"`; otherwise the first segment of `base` is parsed as
    the host.  The relative reference is appended to that directory and
    dot segments are resolved. -/
def urlResolvePathname (base path : String) : String :=
  let basePath :=
    if strStarts base "/" then base ++ "/"
    else
      match splitSlash base with
      | [] => "/"
      | [_] => "/"
      | _ :: rest => "/" ++ String.intercalate "/" rest ++ "/"
  let segs := (splitSlash (basePath ++ path)).drop 1
  "/" ++ String.intercalate "/" (resolveDots [] segs)

/-- `getAbsoluteImportPath` (tailwind.worker source, lines 372-384):
    absolute paths are kept, `./` and `../` paths are resolved against
    the base with `new URL(...).pathname.substring(1)`, anything else is
    returned as is. -/
def getAbsoluteImportPath (base path : String) : String :=
  if strStarts path "/" then path
  else if strStarts path "./" || strStarts path "../" then
    (urlResolvePathname base path).drop 1
  else path

/-- The `{path, base, content}` record produced by the stylesheet
    loader. -/
structure StylesheetEntry where
  path : String
  base : String
  content : String
deriving DecidableEq

/-- The loader produced by `createLoadStylesheet(files)` applied to an
    identifier of an import and a base path (tailwind.worker source, lines
    333-407).  `index`, `preflight`, `theme` and `utilities` are the
    statically embedded partial contents.  The returned flag records
    whether `console.warn` fired: the default branch resolves the
    identifier to an absolute path and looks it up in `files`; a missing
    entry (and, because of the JavaScript truthiness test `if (file)`,
    also an empty-string entry) warns and yields empty content. -/
def createLoadStylesheet (index preflight theme utilities : String)
    (files : FilesMap) (id : String) (base : String) : StylesheetEntry × Bool :=
  if id == "tailwindcss" then
    ({ path := "tailwindcss", base := base, content := index }, false)
  else if id == "tailwindcss/preflight" || id == "tailwindcss/preflight.css"
      || id == "./preflight.css" then
    ({ path := "tailwindcss/preflight", base := base, content := preflight }, false)
  else if id == "tailwindcss/theme" || id == "tailwindcss/theme.css"
      || id == "./theme.css" then
    ({ path := "tailwindcss/theme", base := base, content := theme }, false)
  else if id == "tailwindcss/utilities" || id == "tailwindcss/utilities.css"
      || id == "./utilities.css" then
    ({ path := "tailwindcss/utilities", base := base, content := utilities }, false)
  else
    let absolutePath := getAbsoluteImportPath base id
    match lookupFile files absolutePath with
    | some file =>
      if file == "" then ({ path := absolutePath, base := base, content := "" }, true)
      else ({ path := absolutePath, base := base, content := file }, false)
    | none => ({ path := absolutePath, base := base, content := "" }, true)

/-- The Tailwind side of the partition lists, in order, exactly the
    input classes the design system resolves. -/
theorem partitionClasses_fst_map (cand : String → Option String) (l : List String) :
    (partitionClasses cand l).1.map TailwindClass.className =
      l.filter (fun c => (cand c).isSome) := by
  induction l with
  | nil => rfl
  | cons c rest ih =>
    cases hf : cand c <;> simp [partitionClasses, hf, ih]

/-- The not-Tailwind side of the partition lists, in order, exactly the
    input classes the design system does not resolve. -/
theorem partitionClasses_snd (cand : String → Option String) (l : List String) :
    (partitionClasses cand l).2 = l.filter (fun c => (cand c).isNone) := by
  induction l with
  | nil => rfl
  | cons c rest ih =>
    cases hf : cand c <;> simp [partitionClasses, hf, ih]

/-- Multiplicities on both sides of the partition add up to the input
    multiplicity. -/
theorem partitionClasses_count (cand : String → Option String) (l : List String)
    (c : String) :
    ((partitionClasses cand l).1.map TailwindClass.className).count c
      + (partitionClasses cand l).2.count c = l.count c := by
  induction l with
  | nil => simp [partitionClasses]
  | cons a rest ih =>
    rcases eq_or_ne a c with hac | hac
    · subst hac
      cases hf : cand a <;>
        simp [partitionClasses, hf, List.count_cons] <;> omega
    · cases hf : cand a <;>
        simp [partitionClasses, hf, List.count_cons, beq_iff_eq, hac] <;> omega

/-- Propositional reading of the cache-hit test of
    `TailwindHandler.buildCss`. -/
theorem cacheHit_iff (st : HandlerState) (css : String) (classes : List String) :
    cacheHit st css classes = true ↔
      st.previousCss = css ∧ ∀ c ∈ classes, c ∈ st.previousClasses := by
  simp [cacheHit, List.all_eq_true]

/-- After any `TailwindHandler.buildCss` call, the stored `previousCss`
    equals the requested css and every requested class is stored in
    `previousClasses` (on a hit this is the hit condition itself; on a
    miss the fields were overwritten). -/
theorem TailwindHandler.buildCss_state_fields
    (worker : String → FilesMap → List String → Except String BuildResult)
    (st : HandlerState) (css : String) (classes : List String) (files : FilesMap) :
    ((TailwindHandler.buildCss worker st css classes files).2.1).previousCss = css ∧
    ∀ c ∈ classes,
      c ∈ ((TailwindHandler.buildCss worker st css classes files).2.1).previousClasses := by
  by_cases h : cacheHit st css classes = true
  · obtain ⟨h1, h2⟩ := (cacheHit_iff st css classes).mp h
    simpa [TailwindHandler.buildCss, h] using ⟨h1, h2⟩
  · rw [Bool.not_eq_true] at h
    cases hw : worker css files classes <;>
      simp [TailwindHandler.buildCss, h, hw]

/-- C1: if a second `buildCss` call uses exactly the css of the first
    call and only classes from the first call's class list, it returns
    the identical cached `previousBuildCss` instance, leaves the handler
    state unchanged, and does not invoke the worker again. -/
theorem c1_cache_containment
    (worker : String → FilesMap → List String → Except String BuildResult)
    (st0 : HandlerState) (css1 css2 : String) (classes1 classes2 : List String)
    (files1 files2 : FilesMap)
    (hcss : css2 = css1) (hcl : ∀ c ∈ classes2, c ∈ classes1) :
    TailwindHandler.buildCss worker
        (TailwindHandler.buildCss worker st0 css1 classes1 files1).2.1
        css2 classes2 files2 =
      (.ok ((TailwindHandler.buildCss worker st0 css1 classes1 files1).2.1).previousBuildCss,
       (TailwindHandler.buildCss worker st0 css1 classes1 files1).2.1, false) := by
  obtain ⟨h1, h2⟩ := TailwindHandler.buildCss_state_fields worker st0 css1 classes1 files1
  set st1 := (TailwindHandler.buildCss worker st0 css1 classes1 files1).2.1 with hst1
  have hhit : cacheHit st1 css2 classes2 = true :=
    (cacheHit_iff _ _ _).mpr ⟨hcss ▸ h1, fun c hc => h2 c (hcl c hc)⟩
  show TailwindHandler.buildCss worker st1 css2 classes2 files2 =
    (.ok st1.previousBuildCss, st1, false)
  simp [TailwindHandler.buildCss, hhit]

/-- Witness for C1 at a concrete pair of calls. -/
theorem c1_cache_containment_witness :
    (let worker : String → FilesMap → List String → Except String BuildResult :=
      fun _ _ _ => .ok { css := "x", tailwindClasses := [], notTailwindClasses := ["a"] }
    TailwindHandler.buildCss worker
        (TailwindHandler.buildCss worker initialHandlerState "c" ["a"] []).2.1
        "c" ["a"] [] =
      (.ok ((TailwindHandler.buildCss worker initialHandlerState "c" ["a"] []).2.1).previousBuildCss,
       (TailwindHandler.buildCss worker initialHandlerState "c" ["a"] []).2.1, false)) :=
  c1_cache_containment _ initialHandlerState "c" "c" ["a"] ["a"] [] [] rfl
    (fun _ hc => hc)

/-- C5: a cache miss on which the worker succeeds overwrites
    `previousCss`, `previousClasses` and `previousBuildCss` all with the
    new inputs and the freshly computed worker result; no field keeps a
    merged or stale value. -/
theorem c5_miss_full_overwrite
    (worker : String → FilesMap → List String → Except String BuildResult)
    (st : HandlerState) (css : String) (classes : List String) (files : FilesMap)
    (r : BuildResult)
    (hmiss : cacheHit st css classes = false)
    (hok : worker css files classes = .ok r) :
    TailwindHandler.buildCss worker st css classes files =
      (.ok r,
       { previousCss := css, previousClasses := classes, previousBuildCss := r },
       true) := by
  simp [TailwindHandler.buildCss, hmiss, hok]

/-- Witness for C5 at a concrete missing class. -/
theorem c5_miss_full_overwrite_witness :
    cacheHit initialHandlerState "" ["a"] = false ∧
    TailwindHandler.buildCss
        (fun _ _ _ => .ok { css := "y", tailwindClasses := [], notTailwindClasses := ["a"] })
        initialHandlerState "" ["a"] [] =
      (.ok { css := "y", tailwindClasses := [], notTailwindClasses := ["a"] },
       { previousCss := "", previousClasses := ["a"],
         previousBuildCss := { css := "y", tailwindClasses := [], notTailwindClasses := ["a"] } },
       true) :=
  ⟨by decide,
   c5_miss_full_overwrite _ initialHandlerState "" ["a"] [] _ (by decide) rfl⟩

/-- C8: when the worker call of a cache miss fails, the error
    propagates, `previousCss` and `previousClasses` are already
    overwritten with the new inputs while `previousBuildCss` still holds
    the earlier result; a subsequent call with the failing css and a
    subset of its classes then returns that stale result as a cache
    hit. -/
theorem c8_error_stale_cache
    (worker : String → FilesMap → List String → Except String BuildResult)
    (st : HandlerState) (css : String) (classes : List String) (files : FilesMap)
    (e : String)
    (hmiss : cacheHit st css classes = false)
    (herr : worker css files classes = .error e) :
    TailwindHandler.buildCss worker st css classes files =
      (.error e,
       { previousCss := css, previousClasses := classes,
         previousBuildCss := st.previousBuildCss },
       true) ∧
    ∀ (classes2 : List String) (files2 : FilesMap), (∀ c ∈ classes2, c ∈ classes) →
      TailwindHandler.buildCss worker
          { previousCss := css, previousClasses := classes,
            previousBuildCss := st.previousBuildCss }
          css classes2 files2 =
        (.ok st.previousBuildCss,
         { previousCss := css, previousClasses := classes,
           previousBuildCss := st.previousBuildCss },
         false) := by
  constructor
  · simp [TailwindHandler.buildCss, hmiss, herr]
  · intro classes2 files2 hsub
    have hhit : cacheHit
        { previousCss := css, previousClasses := classes,
          previousBuildCss := st.previousBuildCss } css classes2 = true :=
      (cacheHit_iff _ _ _).mpr ⟨rfl, hsub⟩
    simp [TailwindHandler.buildCss, hhit]

/-- Witness for C8 at a concrete failing worker. -/
theorem c8_error_stale_cache_witness :
    cacheHit initialHandlerState "s" ["a"] = false ∧
    (TailwindHandler.buildCss (fun _ _ _ => .error "boom")
        initialHandlerState "s" ["a"] [] =
      (.error "boom",
       { previousCss := "s", previousClasses := ["a"],
         previousBuildCss := initialHandlerState.previousBuildCss },
       true) ∧
    ∀ (classes2 : List String) (files2 : FilesMap), (∀ c ∈ classes2, c ∈ ["a"]) →
      TailwindHandler.buildCss (fun _ _ _ => .error "boom")
          { previousCss := "s", previousClasses := ["a"],
            previousBuildCss := initialHandlerState.previousBuildCss }
          "s" classes2 files2 =
        (.ok initialHandlerState.previousBuildCss,
         { previousCss := "s", previousClasses := ["a"],
           previousBuildCss := initialHandlerState.previousBuildCss },
         false)) :=
  ⟨by decide,
   c8_error_stale_cache _ initialHandlerState "s" ["a"] [] "boom" (by decide) rfl⟩

/-- C9: the files mapping is not part of either cache key.  Under the
    caller-side hit condition, `buildCss` returns the cached result for
    any files argument, so two runs differing only in files coincide and
    neither invokes the worker; and the worker, called with its
    last-seen css text, produces the same outcome for any files argument
    and leaves its compiler state unchanged. -/
theorem c9_files_not_cache_key
    (worker : String → FilesMap → List String → Except String BuildResult)
    (st : HandlerState) (css : String) (classes : List String)
    (files files2 : FilesMap)
    (h : cacheHit st css classes = true)
    (buildFn : String → FilesMap → List String → String)
    (candFn : String → FilesMap → String → Option String)
    (wst : WorkerState) (wfiles wfiles2 : FilesMap) (wclasses : List String) :
    TailwindHandler.buildCss worker st css classes files =
      TailwindHandler.buildCss worker st css classes files2 ∧
    TailwindHandler.buildCss worker st css classes files =
      (.ok st.previousBuildCss, st, false) ∧
    TailwindcssWorkerImpl.buildCss buildFn candFn wst wst.previousCss wfiles wclasses =
      TailwindcssWorkerImpl.buildCss buildFn candFn wst wst.previousCss wfiles2 wclasses ∧
    ∀ (r : BuildResult) (wst1 : WorkerState),
      TailwindcssWorkerImpl.buildCss buildFn candFn wst wst.previousCss wfiles wclasses =
        .ok (r, wst1) → wst1 = wst := by
  refine ⟨by simp [TailwindHandler.buildCss, h], by simp [TailwindHandler.buildCss, h],
    ?_, ?_⟩
  · cases hc : wst.compiler <;> cases hd : wst.designSystem <;>
      simp [TailwindcssWorkerImpl.buildCss, hc, hd]
  · intro r wst1 hok
    cases hc : wst.compiler <;> cases hd : wst.designSystem <;>
      simp [TailwindcssWorkerImpl.buildCss, hc, hd] at hok <;> exact hok.2.symm

/-- Witness for C9 at a concrete hit and concrete worker state. -/
theorem c9_files_not_cache_key_witness :
    cacheHit initialHandlerState "" [] = true ∧
    (let worker : String → FilesMap → List String → Except String BuildResult :=
      fun _ _ _ => .ok { css := "z", tailwindClasses := [], notTailwindClasses := [] }
    let wst : WorkerState :=
      { previousCss := "p", compiler := some ("p", []),
        designSystem := some ("p", []), pendingDesignSystem := none }
    TailwindHandler.buildCss worker initialHandlerState "" [] [("f", "x")] =
      TailwindHandler.buildCss worker initialHandlerState "" [] [] ∧
    TailwindHandler.buildCss worker initialHandlerState "" [] [("f", "x")] =
      (.ok initialHandlerState.previousBuildCss, initialHandlerState, false) ∧
    TailwindcssWorkerImpl.buildCss (fun _ _ _ => "out") (fun _ _ _ => none)
        wst wst.previousCss [("f", "x")] ["a"] =
      TailwindcssWorkerImpl.buildCss (fun _ _ _ => "out") (fun _ _ _ => none)
        wst wst.previousCss [] ["a"] ∧
    ∀ (r : BuildResult) (wst1 : WorkerState),
      TailwindcssWorkerImpl.buildCss (fun _ _ _ => "out") (fun _ _ _ => none)
          wst wst.previousCss [("f", "x")] ["a"] =
        .ok (r, wst1) → wst1 = wst) :=
  ⟨by decide,
   c9_files_not_cache_key _ initialHandlerState "" [] [("f", "x")] [] (by decide)
     (fun _ _ _ => "out") (fun _ _ _ => none) _ [("f", "x")] [] ["a"]⟩

/-- C10: on a freshly constructed handler, the first `buildCss` call
    with empty css and empty class list satisfies the initial hit
    condition and returns the built-in placeholder result without
    invoking the worker. -/
theorem c10_initial_empty_hit
    (worker : String → FilesMap → List String → Except String BuildResult)
    (files : FilesMap) :
    TailwindHandler.buildCss worker initialHandlerState "" [] files =
      (.ok { css := "", tailwindClasses := [], notTailwindClasses := [] },
       initialHandlerState, false) := rfl

/-- C2: every `BuildResult` the worker produces partitions the requested
    class list: both sides are order-preserving sublists of the input,
    multiplicities add up (no duplicates, no omissions), and each
    requested class lands in exactly one of `tailwindClasses` (by
    `className`) and `notTailwindClasses`. -/
theorem c2_partition_completeness
    (buildFn : String → FilesMap → List String → String)
    (candFn : String → FilesMap → String → Option String)
    (st : WorkerState) (css : String) (files : FilesMap) (classes : List String)
    (r : BuildResult) (st1 : WorkerState)
    (h : TailwindcssWorkerImpl.buildCss buildFn candFn st css files classes =
      .ok (r, st1)) :
    (r.tailwindClasses.map TailwindClass.className).Sublist classes ∧
    r.notTailwindClasses.Sublist classes ∧
    (∀ c, (r.tailwindClasses.map TailwindClass.className).count c
        + r.notTailwindClasses.count c = classes.count c) ∧
    ∀ c ∈ classes,
      (c ∈ r.tailwindClasses.map TailwindClass.className ∧ c ∉ r.notTailwindClasses) ∨
      (c ∉ r.tailwindClasses.map TailwindClass.className ∧ c ∈ r.notTailwindClasses) := by
  cases hc : st.compiler with
  | none => simp [TailwindcssWorkerImpl.buildCss, hc] at h
  | some comp0 =>
    cases hd : st.designSystem with
    | none =>
      simp [TailwindcssWorkerImpl.buildCss, hc, hd] at h
      obtain ⟨hr, -⟩ := h
      subst hr
      refine ⟨by simp, List.Sublist.refl _, by simp, fun c hcm => Or.inr ⟨by simp, hcm⟩⟩
    | some ds =>
      simp [TailwindcssWorkerImpl.buildCss, hc, hd] at h
      obtain ⟨hr, -⟩ := h
      subst hr
      refine ⟨?_, ?_, fun c => partitionClasses_count _ _ _, ?_⟩
      · rw [partitionClasses_fst_map]
        exact List.filter_sublist _
      · rw [partitionClasses_snd]
        exact List.filter_sublist _
      · intro c hcm
        rw [partitionClasses_fst_map, partitionClasses_snd]
        cases hcand : candFn ds.1 ds.2 c with
        | some s =>
          refine Or.inl ⟨List.mem_filter.mpr ⟨hcm, by simp [hcand]⟩, fun hmem => ?_⟩
          have := (List.mem_filter.mp hmem).2
          simp [hcand] at this
        | none =>
          refine Or.inr ⟨fun hmem => ?_, List.mem_filter.mpr ⟨hcm, by simp [hcand]⟩⟩
          have := (List.mem_filter.mp hmem).2
          simp [hcand] at this

/-- Witness for C2 at a concrete worker call with a live design
    system. -/
theorem c2_partition_completeness_witness :
    (let r : BuildResult :=
      { css := "out", tailwindClasses := [{ className := "flex", css := ".flex{display:flex}" }],
        notTailwindClasses := ["nope"] }
    (r.tailwindClasses.map TailwindClass.className).Sublist ["flex", "nope"] ∧
    r.notTailwindClasses.Sublist ["flex", "nope"] ∧
    (∀ c, (r.tailwindClasses.map TailwindClass.className).count c
        + r.notTailwindClasses.count c = (["flex", "nope"] : List String).count c) ∧
    ∀ c ∈ (["flex", "nope"] : List String),
      (c ∈ r.tailwindClasses.map TailwindClass.className ∧ c ∉ r.notTailwindClasses) ∨
      (c ∉ r.tailwindClasses.map TailwindClass.className ∧ c ∈ r.notTailwindClasses)) :=
  c2_partition_completeness (fun _ _ _ => "out")
    (fun _ _ c => if c == "flex" then some ".flex{display:flex}" else none)
    { previousCss := "p", compiler := some ("p", []),
      designSystem := some ("p", []), pendingDesignSystem := none }
    "p" [] ["flex", "nope"] _ _ rfl

/-- C3: a worker `buildCss` call finding a live compiler but no design
    system yet does not fail: it returns the built css with an empty
    `tailwindClasses` list and every requested class, in order, in
    `notTailwindClasses`. -/
theorem c3_degraded_no_design_system
    (buildFn : String → FilesMap → List String → String)
    (candFn : String → FilesMap → String → Option String)
    (st : WorkerState) (css : String) (files : FilesMap) (classes : List String)
    (comp0 : String × FilesMap)
    (hc : st.compiler = some comp0) (hd : st.designSystem = none) :
    ∃ builtCss st1,
      TailwindcssWorkerImpl.buildCss buildFn candFn st css files classes =
        .ok ({ css := builtCss, tailwindClasses := [], notTailwindClasses := classes },
          st1) := by
  by_cases hcss : (css == st.previousCss) = true
  · exact ⟨buildFn comp0.1 comp0.2 classes, st,
      by simp [TailwindcssWorkerImpl.buildCss, hc, hd, hcss]⟩
  · rw [Bool.not_eq_true] at hcss
    exact ⟨buildFn css files classes,
      { st with compiler := some (css, files),
                pendingDesignSystem := some (css, files), previousCss := css },
      by simp [TailwindcssWorkerImpl.buildCss, hc, hd, hcss]⟩

/-- Witness for C3 at a concrete not-yet-derived design system. -/
theorem c3_degraded_no_design_system_witness :
    ∃ builtCss st1,
      TailwindcssWorkerImpl.buildCss (fun _ _ _ => "built") (fun _ _ _ => none)
          { previousCss := "p", compiler := some ("p", []),
            designSystem := none, pendingDesignSystem := none }
          "q" [] ["a", "b"] =
        .ok ({ css := builtCss, tailwindClasses := [], notTailwindClasses := ["a", "b"] },
          st1) :=
  c3_degraded_no_design_system (fun _ _ _ => "built") (fun _ _ _ => none)
    { previousCss := "p", compiler := some ("p", []),
      designSystem := none, pendingDesignSystem := none }
    "q" [] ["a", "b"] ("p", []) rfl rfl

/-- C7: the analysis-state cache of `getState` returns the cached state
    object unchanged exactly when the current design-system handle is
    identical to the one recorded with it; otherwise the whole state
    (class list, variants, colors together) is rebuilt from the current
    handle and cached with it — handle identity is the sole invalidation
    trigger. -/
theorem c7_state_cache_identity {DS : Type} [DecidableEq DS]
    (getClassList : DS → List String) (getColor : DS → String → Option String)
    (getVariantsFn : DS → List String) (cache : StateCache DS) (ds : DS) :
    (∀ s, cache.cachedState = some s → cache.cachedStateDS = some ds →
      TailwindcssWorkerImpl.getState getClassList getColor getVariantsFn cache (some ds) =
        .ok (s, cache)) ∧
    (cache.cachedState = none ∨ cache.cachedStateDS ≠ some ds →
      TailwindcssWorkerImpl.getState getClassList getColor getVariantsFn cache (some ds) =
        .ok (buildAnalysisState getClassList getColor getVariantsFn ds,
          { cachedState := some (buildAnalysisState getClassList getColor getVariantsFn ds),
            cachedStateDS := some ds })) := by
  constructor
  · intro s hs hds
    simp [TailwindcssWorkerImpl.getState, hs, hds]
  · intro h
    rcases h with h | h
    · simp [TailwindcssWorkerImpl.getState, h]
    · cases hs : cache.cachedState <;>
        simp [TailwindcssWorkerImpl.getState, hs, h]

/-- Witness for C7 at a concrete cached handle. -/
theorem c7_state_cache_identity_witness :
    TailwindcssWorkerImpl.getState (fun _ : Nat => ["flex"]) (fun _ _ => none)
        (fun _ => ["hover"])
        { cachedState := some { designSystem := 1, classList := [], variants := [] },
          cachedStateDS := some 1 }
        (some 1) =
      .ok ({ designSystem := 1, classList := [], variants := [] },
        { cachedState := some { designSystem := 1, classList := [], variants := [] },
          cachedStateDS := some 1 }) :=
  (c7_state_cache_identity (fun _ : Nat => ["flex"]) (fun _ _ => none)
      (fun _ => ["hover"])
      { cachedState := some { designSystem := 1, classList := [], variants := [] },
        cachedStateDS := some 1 }
      1).1
    { designSystem := 1, classList := [], variants := [] } rfl rfl

/-- C4 (amended): for the preflight, theme-defaults and utilities
    partials, each documented alias spelling (bare module name,
    `.css`-suffixed, relative `./x.css`) resolves to the same statically
    embedded content for every base path and file mapping, without a
    warning; the core index partial resolves only through its single
    bare spelling `tailwindcss`. -/
theorem c4_alias_resolution (index preflight theme utilities : String)
    (files : FilesMap) (base : String) :
    createLoadStylesheet index preflight theme utilities files "tailwindcss" base =
      ({ path := "tailwindcss", base := base, content := index }, false) ∧
    createLoadStylesheet index preflight theme utilities files "tailwindcss/preflight" base =
      ({ path := "tailwindcss/preflight", base := base, content := preflight }, false) ∧
    createLoadStylesheet index preflight theme utilities files "tailwindcss/preflight.css" base =
      ({ path := "tailwindcss/preflight", base := base, content := preflight }, false) ∧
    createLoadStylesheet index preflight theme utilities files "./preflight.css" base =
      ({ path := "tailwindcss/preflight", base := base, content := preflight }, false) ∧
    createLoadStylesheet index preflight theme utilities files "tailwindcss/theme" base =
      ({ path := "tailwindcss/theme", base := base, content := theme }, false) ∧
    createLoadStylesheet index preflight theme utilities files "tailwindcss/theme.css" base =
      ({ path := "tailwindcss/theme", base := base, content := theme }, false) ∧
    createLoadStylesheet index preflight theme utilities files "./theme.css" base =
      ({ path := "tailwindcss/theme", base := base, content := theme }, false) ∧
    createLoadStylesheet index preflight theme utilities files "tailwindcss/utilities" base =
      ({ path := "tailwindcss/utilities", base := base, content := utilities }, false) ∧
    createLoadStylesheet index preflight theme utilities files "tailwindcss/utilities.css" base =
      ({ path := "tailwindcss/utilities", base := base, content := utilities }, false) ∧
    createLoadStylesheet index preflight theme utilities files "./utilities.css" base =
      ({ path := "tailwindcss/utilities", base := base, content := utilities }, false) :=
  ⟨rfl, rfl, rfl, rfl, rfl, rfl, rfl, rfl, rfl, rfl⟩

/-- C4 counterexample: the relative alias spelling `./index.css` of the
    core index partial is not recognized by the loader switch; it falls
    through to the virtual-file lookup and resolves to empty content
    with a missing-file warning instead of the embedded index
    content. -/
theorem c4_alias_resolution_counterexample :
    createLoadStylesheet "INDEX" "PRE" "THM" "UTI" [] "./index.css" "/" =
      ({ path := "/index.css", base := "/", content := "" }, true) ∧
    ("" : String) ≠ "INDEX" := by
  constructor
  · rfl
  · decide

/-- C6: an import identifier that is none of the built-in partial
    spellings and whose resolved absolute path has no entry in the file
    mapping does not fail the load: the loader warns and returns an
    entry with empty content at the resolved path. -/
theorem c6_missing_file_graceful (index preflight theme utilities : String)
    (files : FilesMap) (id base : String)
    (hid : id ∉ (["tailwindcss", "tailwindcss/preflight", "tailwindcss/preflight.css",
      "./preflight.css", "tailwindcss/theme", "tailwindcss/theme.css", "./theme.css",
      "tailwindcss/utilities", "tailwindcss/utilities.css", "./utilities.css"] :
        List String))
    (hmiss : lookupFile files (getAbsoluteImportPath base id) = none) :
    createLoadStylesheet index preflight theme utilities files id base =
      ({ path := getAbsoluteImportPath base id, base := base, content := "" }, true) := by
  simp only [List.mem_cons, List.not_mem_nil, or_false, not_or] at hid
  obtain ⟨h1, h2, h3, h4, h5, h6, h7, h8, h9, h10⟩ := hid
  simp [createLoadStylesheet, beq_iff_eq, h1, h2, h3, h4, h5, h6, h7, h8, h9, h10, hmiss]

/-- Witness for C6 at a concrete absent file. -/
theorem c6_missing_file_graceful_witness :
    createLoadStylesheet "I" "P" "T" "U" [] "/missing.css" "/" =
      ({ path := "/missing.css", base := "/", content := "" }, true) :=
  c6_missing_file_graceful "I" "P" "T" "U" [] "/missing.css" "/" (by decide) rfl
